import Mathlib

/-!
Formal model of the tracing instrumentation core of this repository
(`src/instrument.ts`).  The TypeScript functions are translated into pure
Lean functions; the mutable module state (default tracer provider, PII
opt-in flag, ambient context, created spans) is threaded explicitly through
a `World` record.  JavaScript values that flow through the async adapters
are modelled by a small universe `JsVal` with JS truthiness; the
OpenTelemetry externals (`trace.setSpan`, `trace.getTracer`,
`startSpan`, span operations) are modelled after the documented
OpenTelemetry JS API: contexts are immutable values, `trace.setSpan`
returns a fresh context, and `tracer.startSpan` parents the new span to the
span active in the ambient context.
-/

namespace Spanner

/-- String containment helper over character lists: does the pattern occur
as a contiguous sublist?  Used to translate the unanchored alternatives of
the JS regular expressions in `callbackifyAll` / `promisifyAll`. -/
def listContainsSub (pat : List Char) : List Char → Bool
  | [] => pat.isEmpty
  | c :: rest => List.isPrefixOf pat (c :: rest) || listContainsSub pat rest

/-- JS `string.startsWith(pat)` / the anchored regex alternative. -/
def strStarts (s pat : String) : Bool := List.isPrefixOf pat.data s.data

/-- JS `string.endsWith(pat)` / the end-anchored regex alternative. -/
def strEnds (s pat : String) : Bool := List.isSuffixOf pat.data s.data

/-- Unanchored regex alternative: the pattern occurs anywhere in the name. -/
def strIncludes (s pat : String) : Bool := listContainsSub pat.data s.data

/-- A JavaScript `Error` object; `message` holds the result of its
`toString()` (the "stringified error"). -/
structure JsError where
  message : String
deriving DecidableEq, Repr

/-- Small universe of JavaScript values passed through the adapters. -/
inductive JsVal where
  | undef
  | nullv
  | boolv (b : Bool)
  | num (n : Int)
  | str (s : String)
  | arr (elems : List JsVal)
  | err (e : JsError)
  | fn (tag : Nat) (name : String)

/-- JS truthiness of a value. -/
def JsVal.truthy : JsVal → Bool
  | .undef => false
  | .nullv => false
  | .boolv b => b
  | .num n => n != 0
  | .str s => s != ""
  | .arr _ => true
  | .err _ => true
  | .fn _ _ => true

/-- JS `typeof v === 'undefined'`. -/
def JsVal.isUndefined : JsVal → Bool
  | .undef => true
  | _ => false

/-- JS `typeof v === 'function'`. -/
def JsVal.isFunction : JsVal → Bool
  | .fn _ _ => true
  | _ => false

mutual

/-- JS stringification (`String(v)` / `v.toString()`); an `Error` yields
its stored stringified form, an array joins its elements with commas. -/
def JsVal.jsToString : JsVal → String
  | .undef => "undefined"
  | .nullv => "null"
  | .boolv b => cond b "true" "false"
  | .num n => toString n
  | .str s => s
  | .arr l => jsValsJoin l
  | .err e => e.message
  | .fn _ nm => "function " ++ nm

/-- Comma-join of stringified array elements. -/
def jsValsJoin : List JsVal → String
  | [] => ""
  | [v] => JsVal.jsToString v
  | v :: rest => JsVal.jsToString v ++ "," ++ jsValsJoin rest

end

/-- The structured statement shape accepted by `startTrace`
(`interface SQLStatement` in `src/instrument.ts`). -/
structure SQLStatement where
  sql : String
deriving DecidableEq, Repr

/-- Semantic-convention attribute key for the DB system. -/
def SEMATTRS_DB_SYSTEM : String := "db.system"

/-- Semantic-convention attribute key for the SQL statement text. -/
def SEMATTRS_DB_STATEMENT : String := "db.statement"

/-- Semantic-convention attribute key for the SQL table. -/
def SEMATTRS_DB_SQL_TABLE : String := "db.sql.table"

/-- OpenTelemetry span status codes. -/
inductive SpanStatusCode where
  | unset
  | ok
  | error
deriving DecidableEq, Repr

/-- A span status: a code together with a message. -/
structure SpanStatusRec where
  code : SpanStatusCode
  message : String
deriving DecidableEq, Repr

/-- OpenTelemetry span kinds (only `client` is used by `startTrace`). -/
inductive SpanKind where
  | client
  | internal
deriving DecidableEq, Repr

/-- A tracer provider; identified by an opaque label. -/
structure TracerProvider where
  label : String
deriving DecidableEq, Repr

/-- A tracer: the provider it came from and the instrumentation name it
was requested under. -/
structure Tracer where
  providerLabel : String
  instrName : String
deriving DecidableEq, Repr

/-- `provider.getTracer(name)` of the OpenTelemetry API. -/
def TracerProvider.getTracer (p : TracerProvider) (instrName : String) : Tracer :=
  ⟨p.label, instrName⟩

/-- The module-level tracing globals of `src/instrument.ts`:
`defaultTracerProvider` (initially `undefined`) and, as a model of the
ambient OpenTelemetry registry consulted by `trace.getTracer`, the
provider globally registered in the process (possibly a no-op provider). -/
structure TraceGlobals where
  defaultTracerProvider : Option TracerProvider
  globalProvider : TracerProvider
deriving DecidableEq, Repr

/-- `trace.getTracer(name)` of the ambient OpenTelemetry registry. -/
def traceGetTracer (g : TraceGlobals) (instrName : String) : Tracer :=
  g.globalProvider.getTracer instrName

/-- `getTracer` of `src/instrument.ts` (lines 89-95): use the default
tracer provider when one has been set (JS truthiness: `undefined` is
falsy, a provider object truthy), otherwise the ambient global tracer;
both under the fixed name `nodejs-spanner`.  It takes no per-call input. -/
def getTracer (g : TraceGlobals) : Tracer :=
  match g.defaultTracerProvider with
  | some p => p.getTracer "nodejs-spanner"
  | none => traceGetTracer g "nodejs-spanner"

/-- `setTracerProvider` of `src/instrument.ts` (lines 82-84). -/
def setTracerProvider (g : TraceGlobals) (freshTracerProvider : TracerProvider) : TraceGlobals :=
  { g with defaultTracerProvider := some freshTracerProvider }

/-- An immutable OpenTelemetry context value carrying the active span
(identified by its index in the world's span list). -/
structure Context where
  activeSpan : Option Nat
deriving DecidableEq, Repr

/-- `trace.setSpan(context, span)` of the OpenTelemetry API: pure, returns
a fresh context with the given span set; it does not mutate the ambient
context. -/
def traceSetSpan (c : Context) (sid : Nat) : Context :=
  { c with activeSpan := some sid }

/-- One recorded span. -/
structure SpanData where
  name : String
  kind : SpanKind
  tracer : Tracer
  attrs : List (String × String)
  status : SpanStatusRec
  ended : Bool
  parent : Option Nat
deriving DecidableEq, Repr

/-- Placeholder span used only as the default of list lookups. -/
def defaultSpan : SpanData :=
  { name := "", kind := .client, tracer := ⟨"", ""⟩, attrs := [],
    status := ⟨.unset, ""⟩, ended := false, parent := none }

/-- The explicit module state threaded through the translated functions:
tracing globals, the PII opt-in flag, the ambient context, and all spans
created so far (a span is identified by its index). -/
structure World where
  globals : TraceGlobals
  optedInPII : Bool
  ambient : Context
  spans : List SpanData
deriving DecidableEq, Repr

/-- `span.setAttribute(key, value)`: overwrite the key when present,
otherwise append it (association-list update). -/
def setAttr : List (String × String) → String → String → List (String × String)
  | [], k, v => [(k, v)]
  | (k', v') :: rest, k, v =>
    if k' == k then (k, v) :: rest else (k', v') :: setAttr rest k v

/-- Attribute lookup on a span's attribute list. -/
def getAttr : List (String × String) → String → Option String
  | [], _ => none
  | (k', v') :: rest, k => if k' == k then some v' else getAttr rest k

/-- JS truthiness of the optional `sql` argument of `startTrace`: absent
and the empty string are falsy, a statement object is always truthy. -/
def sqlTruthy : Option (String ⊕ SQLStatement) → Bool
  | none => false
  | some (.inl s) => s != ""
  | some (.inr _) => true

/-- The literal SQL text of the argument (`sql` itself, or the `sql` field
of a structured statement). -/
def sqlText : Option (String ⊕ SQLStatement) → String
  | none => ""
  | some (.inl s) => s
  | some (.inr stmt) => stmt.sql

/-- The unconditional system attribute of `startTrace` (line 119),
followed by the table attribute when `tableName` is truthy
(lines 121-123). -/
def baseAttrs (tableName : Option String) : List (String × String) :=
  let attrs1 := setAttr [] SEMATTRS_DB_SYSTEM "google.cloud.spanner"
  match tableName with
  | some t => if t != "" then setAttr attrs1 SEMATTRS_DB_SQL_TABLE t else attrs1
  | none => attrs1

/-- The attribute-setting sequence of `startTrace` (lines 119-132): the
base attributes, then the statement attribute when `optedInPII && sql`,
with the literal SQL string (or the `sql` field of a structured
statement) as its value. -/
def builtAttrs (optedInPII : Bool) (sql : Option (String ⊕ SQLStatement))
    (tableName : Option String) : List (String × String) :=
  if optedInPII && sqlTruthy sql then
    match sql with
    | some (.inl s) => setAttr (baseAttrs tableName) SEMATTRS_DB_STATEMENT s
    | some (.inr stmt) => setAttr (baseAttrs tableName) SEMATTRS_DB_STATEMENT stmt.sql
    | none => baseAttrs tableName
  else baseAttrs tableName

/-- The span constructed by `startTrace` (lines 114-132): name prefixed
with the fixed namespace root, kind client, parented to the span active in
the ambient context (`tracer.startSpan` defaults to the active context),
with the attributes of `builtAttrs`. -/
def builtSpan (w : World) (spanNameSuffix : String)
    (sql : Option (String ⊕ SQLStatement)) (tableName : Option String) : SpanData :=
  { name := "cloud.google.com/nodejs/spanner/" ++ spanNameSuffix
    kind := .client
    tracer := getTracer w.globals
    attrs := builtAttrs w.optedInPII sql tableName
    status := ⟨.unset, ""⟩
    ended := false
    parent := w.ambient.activeSpan }

/-- `startTrace` of `src/instrument.ts` (lines 109-139).  It creates the
span and then evaluates `trace.setSpan(context.active(), span)`; that call
returns a fresh context which the source discards (`_discarded` below), so
the ambient context of the world is returned unchanged.  Returns the new
span's identifier and the updated world. -/
def startTrace (w : World) (spanNameSuffix : String)
    (sql : Option (String ⊕ SQLStatement)) (tableName : Option String) : Nat × World :=
  let span := builtSpan w spanNameSuffix sql tableName
  let _discarded := traceSetSpan w.ambient w.spans.length
  (w.spans.length, { w with spans := w.spans ++ [span] })

/-- The span record created by a `startTrace` call, read back from the
resulting world. -/
def startTraceSpan (w : World) (spanNameSuffix : String)
    (sql : Option (String ⊕ SQLStatement)) (tableName : Option String) : SpanData :=
  ((startTrace w spanNameSuffix sql tableName).2).spans.getD
    (startTrace w spanNameSuffix sql tableName).1 defaultSpan

/-- Update one span of the world (used to model `span.setStatus` and
`span.end()` on a span held by an adapter). -/
def modifySpan (w : World) (sid : Nat) (f : SpanData → SpanData) : World :=
  match w.spans.get? sid with
  | some sp => { w with spans := w.spans.set sid (f sp) }
  | none => w

/-- `span.end()` on span `sid`. -/
def endSpanW (w : World) (sid : Nat) : World :=
  modifySpan w sid (fun sp => { sp with ended := true })

/-- Observable events emitted by the adapters, in program order. -/
inductive Ev where
  | startSpanEv (sid : Nat)
  | setStatusEv (sid : Nat) (code : SpanStatusCode) (message : String)
  | endSpanEv (sid : Nat)
  | cbCall (args : List JsVal)
  | forwardEv
  | resolveEv (v : JsVal)
  | rejectEv (v : JsVal)

/-- `setSpanError` of `src/instrument.ts` (lines 141-150): guard
`if (!err || !span) return;` under JS truthiness, else
`span.setStatus({code: ERROR, message: err.toString()})`.  The second
component records the emitted status event (empty when the guard fires). -/
def setSpanError (w : World) (span : Option Nat) (err : Option JsVal) : World × List Ev :=
  match span, err with
  | some sid, some e =>
    if e.truthy then
      (modifySpan w sid (fun sp => { sp with status := ⟨.error, e.jsToString⟩ }),
       [.setStatusEv sid .error e.jsToString])
    else (w, [])
  | _, _ => (w, [])

/-- Options accepted by `promisify` (`options.singular`; an absent or
falsy `singular` behaves as `false`). -/
structure PromisifyOptions where
  singular : Bool
deriving DecidableEq, Repr

/-- A JS function object as seen by the adapters: either an unwrapped
function (identified by a tag), or a wrapper produced by `callbackify` or
`promisify`.  The idempotence markers `callbackified_` / `promisified_`
are determined by the outermost layer, exactly as the flag properties the
source sets on the freshly created wrapper functions. -/
inductive FuncObj where
  | plain (tag : Nat)
  | cbWrapped (inner : FuncObj)
  | prWrapped (singular : Bool) (inner : FuncObj)
deriving DecidableEq, Repr

/-- The `callbackified_` marker read by `callbackify`. -/
def FuncObj.callbackified_ : FuncObj → Bool
  | .cbWrapped _ => true
  | _ => false

/-- The `promisified_` marker read by `promisify`. -/
def FuncObj.promisified_ : FuncObj → Bool
  | .prWrapped _ _ => true
  | _ => false

/-- `callbackify` of `src/instrument.ts` (lines 163-193) at the level of
function objects: return the input unchanged when it already carries the
marker, else produce a marked wrapper around it.  (The call-time behavior
of the wrapper is modelled separately by `callbackifyRun`.) -/
def callbackify (originalMethod : FuncObj) : FuncObj :=
  if originalMethod.callbackified_ then originalMethod
  else .cbWrapped originalMethod

/-- `promisify` of `src/instrument.ts` (lines 241-312) at the level of
function objects; `options = options || {}` normalizes an absent options
bag to `singular = false`.  (The call-time behavior of the wrapper is
modelled separately by `promisifyRun`.) -/
def promisify (originalMethod : FuncObj) (options : Option PromisifyOptions) : FuncObj :=
  if originalMethod.promisified_ then originalMethod
  else .prWrapped (options.getD ⟨false⟩).singular originalMethod

/-- A value found on a class prototype: a method (function object) or a
non-function property. -/
inductive ProtoVal where
  | func (f : FuncObj)
  | other (tag : Nat)
deriving DecidableEq, Repr

/-- Options accepted by `callbackifyAll` / `promisifyAll`. -/
structure AllOptions where
  exclude : List String
  singular : Bool
deriving DecidableEq, Repr

/-- The test of the regex `/^_|(Stream|_)|^constructor$/` used by
`callbackifyAll` (line 217): it matches a name starting with an
underscore, containing `Stream` anywhere, containing `_` anywhere, or
equal to `constructor`. -/
def callbackifyRegexTest (methodName : String) : Bool :=
  strStarts methodName "_" || strIncludes methodName "Stream" ||
    strIncludes methodName "_" || methodName == "constructor"

/-- The test of the regex `/(^_|(Stream|_)|promise$)|^constructor$/` used
by `promisifyAll` (line 336): as for `callbackifyAll`, plus names ending
in `promise`. -/
def promisifyRegexTest (methodName : String) : Bool :=
  strStarts methodName "_" || strIncludes methodName "Stream" ||
    strIncludes methodName "_" || strEnds methodName "promise" ||
    methodName == "constructor"

/-- The `exclude` list of an optional options bag
(`(options && options.exclude) || []`). -/
def excludeOf (options : Option AllOptions) : List String :=
  match options with
  | some o => o.exclude
  | none => []

/-- `callbackifyAll` of `src/instrument.ts` (lines 205-228): a prototype
is an association list of own property names to values; a method is
replaced by its callbackified wrapper when it is not in the exclusion
list, is a function, passes the regex filter, and does not already carry
the marker. -/
def callbackifyAll (proto : List (String × ProtoVal)) (options : Option AllOptions) :
    List (String × ProtoVal) :=
  let exclude := excludeOf options
  proto.map (fun entry =>
    let methodName := entry.1
    let isFn := match entry.2 with | .func _ => true | .other _ => false
    if !(exclude.contains methodName) && isFn && !(callbackifyRegexTest methodName) then
      match entry.2 with
      | .func f => if !f.callbackified_ then (methodName, .func (callbackify f)) else entry
      | .other _ => entry
    else entry)

/-- `promisifyAll` of `src/instrument.ts` (lines 325-347); the whole
options bag is forwarded to `promisify`, which reads only `singular`. -/
def promisifyAll (proto : List (String × ProtoVal)) (options : Option AllOptions) :
    List (String × ProtoVal) :=
  let exclude := excludeOf options
  proto.map (fun entry =>
    let methodName := entry.1
    let isFn := match entry.2 with | .func _ => true | .other _ => false
    if !(exclude.contains methodName) && isFn && !(promisifyRegexTest methodName) then
      match entry.2 with
      | .func f =>
        if !f.promisified_ then
          (methodName, .func (promisify f (options.map (fun o => ⟨o.singular⟩))))
        else entry
      | .other _ => entry
    else entry)

/-- The promise-returning method wrapped by `callbackify`: applying it to
arguments yields a settlement, fulfilled with a value or rejected with an
`Error` (the rejection handler of the source is typed `(err: Error)`). -/
structure PromisedFn where
  name : String
  settle : List JsVal → Except JsError JsVal

/-- Result of one invocation of the `callbackify` wrapper: final world,
emitted events in program order, and the raw return value of the original
method on the transparent forwarding path (`none` on the traced path,
where the wrapper returns `undefined`). -/
structure CbRun where
  world : World
  events : List Ev
  forwardedRet : Option (Except JsError JsVal)

/-- Call-time behavior of the wrapper created by `callbackify`
(lines 169-190): when the last argument is not a function, forward to the
original method; otherwise pop the callback, start a span named after the
callback, run the original method on the remaining arguments, and on
fulfillment end the span and call the callback with a null error and the
(spread, if array-shaped) result, while on rejection record the error on
the span, end it, and call the callback with the error. -/
def callbackifyRun (m : PromisedFn) (w : World) (args : List JsVal) : CbRun :=
  match args.getLast? with
  | some (.fn _ cbName) =>
    let rest := args.dropLast
    let (sid, w1) := startTrace w ("Spanner." ++ cbName) none none
    match m.settle rest with
    | .ok res =>
      let resList := match res with | .arr l => l | v => [v]
      { world := endSpanW w1 sid
        events := [.startSpanEv sid, .endSpanEv sid, .cbCall (JsVal.nullv :: resList)]
        forwardedRet := none }
    | .error e =>
      let errVal := JsVal.err e
      let res1 := setSpanError w1 (some sid) (some errVal)
      { world := endSpanW res1.1 sid
        events := [.startSpanEv sid] ++ res1.2 ++ [.endSpanEv sid, .cbCall [errVal]]
        forwardedRet := none }
  | _ =>
    { world := w, events := [.forwardEv], forwardedRet := some (m.settle args) }

/-- The callback-style method wrapped by `promisify`: `cbArgs` gives the
argument list the method passes to its trailing callback (error slot
first), and `rawReturn` its raw return value on the direct-forwarding
path (when a callback was supplied explicitly). -/
structure CallbackFn where
  name : String
  cbArgs : List JsVal → List JsVal
  rawReturn : List JsVal → JsVal

/-- Settlement of the promise returned by the `promisify` wrapper. -/
inductive PromiseSettle where
  | resolved (v : JsVal)
  | rejected (v : JsVal)

/-- Result of one invocation of the `promisify` wrapper: final world,
emitted events, and either the settlement of the produced promise or, on
the direct-forwarding path, the raw return of the original method. -/
structure PRun where
  world : World
  events : List Ev
  outcome : PromiseSettle ⊕ JsVal

/-- The trailing-argument scan of the `promisify` wrapper (lines 259-271):
skipping trailing `undefined` placeholders, is the last remaining argument
a function (an explicitly supplied callback)? -/
def lastNonUndefinedIsFunction (args : List JsVal) : Bool :=
  match args.reverse.dropWhile (fun a => a.isUndefined) with
  | [] => false
  | a :: _ => a.isFunction

/-- `slice.call(arguments, 0, last + 1)` (line 274): the arguments with
trailing `undefined` placeholders peeled off. -/
def peelTrailingUndefined (args : List JsVal) : List JsVal :=
  (args.reverse.dropWhile (fun a => a.isUndefined)).reverse

/-- Call-time behavior of the wrapper created by `promisify`
(lines 254-308): start a span named after the target method; if an
explicit callback is detected by the trailing scan, forward directly to
the original method (returning its raw result, the span left untouched);
otherwise peel the trailing `undefined`s, append a synthesized callback
and return a promise: on a truthy error the span error status is set, the
span ended and the promise rejected with that error; otherwise the
promise resolves with the single bare value when `singular` is configured
and exactly one result value is present, else with the full ordered
result list, and the span is ended. -/
def promisifyRun (m : CallbackFn) (options : Option PromisifyOptions) (w : World)
    (args : List JsVal) : PRun :=
  let opts := options.getD ⟨false⟩
  let (sid, w1) := startTrace w ("Spanner." ++ m.name) none none
  if lastNonUndefinedIsFunction args then
    { world := w1, events := [.startSpanEv sid, .forwardEv], outcome := .inr (m.rawReturn args) }
  else
    let callbackArgs := m.cbArgs (peelTrailingUndefined args)
    let err := callbackArgs.headD .undef
    let rest := callbackArgs.tail
    if err.truthy then
      let res1 := setSpanError w1 (some sid) (some err)
      { world := endSpanW res1.1 sid
        events := [.startSpanEv sid] ++ res1.2 ++ [.endSpanEv sid, .rejectEv err]
        outcome := .inl (.rejected err) }
    else
      let resolvedVal := if opts.singular && rest.length == 1 then rest.headD .undef else .arr rest
      { world := endSpanW w1 sid
        events := [.startSpanEv sid, .resolveEv resolvedVal, .endSpanEv sid]
        outcome := .inl (.resolved resolvedVal) }

/-- The resolution policy of the synthesized callback, written after the
words of the specification: reject with the callback's error when one is
supplied (truthy error slot), resolve with the bare single value when
`singular` is configured and exactly one result value is present, else
resolve with the full ordered result list. -/
def promisifySettleSpec (m : CallbackFn) (options : Option PromisifyOptions)
    (args : List JsVal) : PromiseSettle :=
  let singular := (options.getD ⟨false⟩).singular
  match m.cbArgs (peelTrailingUndefined args) with
  | [] => .resolved (.arr [])
  | e :: rest =>
    if e.truthy then .rejected e
    else if singular && rest.length == 1 then .resolved (rest.headD .undef)
    else .resolved (.arr rest)

/-- The noop span facade: an invalid sentinel span context. -/
structure SpanContext where
  traceId : String
  spanId : String
  traceFlags : Nat
deriving DecidableEq, Repr

/-- The fixed invalid sentinel context of the OpenTelemetry API. -/
def INVALID_SPAN_CONTEXT : SpanContext :=
  ⟨"00000000000000000000000000000000", "0000000000000000", 0⟩

/-- A span link (only its context matters for the noop facade). -/
structure Link where
  context : SpanContext
deriving DecidableEq, Repr

/-- The `noopSpan` class of `src/instrument.ts` (lines 372-414); it has no
state, so a single value inhabits it. -/
inductive NoopSpan where
  | mk
deriving DecidableEq, Repr

/-- `noopSpan.spanContext()` returns the invalid sentinel context. -/
def NoopSpan.spanContext (_ : NoopSpan) : SpanContext := INVALID_SPAN_CONTEXT

/-- `noopSpan.setAttribute` returns `this`. -/
def NoopSpan.setAttribute (s : NoopSpan) (_key : String) (_value : JsVal) : NoopSpan := s

/-- `noopSpan.setAttributes` returns `this`. -/
def NoopSpan.setAttributes (s : NoopSpan) (_attributes : List (String × JsVal)) : NoopSpan := s

/-- `noopSpan.addEvent` returns `this`. -/
def NoopSpan.addEvent (s : NoopSpan) (_name : String) (_attributes : Option (List (String × JsVal))) : NoopSpan := s

/-- `noopSpan.addLink` returns `this`. -/
def NoopSpan.addLink (s : NoopSpan) (_link : Link) : NoopSpan := s

/-- `noopSpan.addLinks` returns `this`. -/
def NoopSpan.addLinks (s : NoopSpan) (_links : List Link) : NoopSpan := s

/-- `noopSpan.setStatus` returns `this`. -/
def NoopSpan.setStatus (s : NoopSpan) (_status : SpanStatusRec) : NoopSpan := s

/-- `noopSpan.end()` does nothing (named `endSpan` because `end` is a Lean
keyword). -/
def NoopSpan.endSpan (_ : NoopSpan) (_endTime : Option Nat) : Unit := ()

/-- `noopSpan.isRecording()` is always false. -/
def NoopSpan.isRecording (_ : NoopSpan) : Bool := false

/-- `noopSpan.recordException` does nothing. -/
def NoopSpan.recordException (_ : NoopSpan) (_exc : JsVal) (_timeAt : Option Nat) : Unit := ()

/-- `noopSpan.updateName` returns `this`. -/
def NoopSpan.updateName (s : NoopSpan) (_name : String) : NoopSpan := s

/-- `trace.getActiveSpan()`: the span active in the ambient context. -/
def traceGetActiveSpan (c : Context) : Option Nat := c.activeSpan

/-- `getActiveOrNoopSpan` of `src/instrument.ts` (lines 364-370): the
active span when one exists in the ambient context, else a fresh noop
span. -/
def getActiveOrNoopSpan (c : Context) : Nat ⊕ NoopSpan :=
  match traceGetActiveSpan c with
  | some sid => .inl sid
  | none => .inr .mk

/-- The span a given `startTrace` call records, read off the result world
at the returned identifier. -/
def createdSpan (w : World) (spanNameSuffix : String)
    (sql : Option (String ⊕ SQLStatement)) (tableName : Option String) : SpanData :=
  startTraceSpan w spanNameSuffix sql tableName

/-- Claim C1 as stated: on every `startTrace` call the statement-text
attribute is present if and only if SQL text was supplied AND (the global
PII opt-in flag is true OR the per-call extended-tracing flag is true),
and when present it equals the literal SQL.  The per-call flag
`enableExtendedTracing` is quantified alongside the call because
`startTrace` in `src/instrument.ts` accepts no such parameter. -/
def claimC1 : Prop :=
  ∀ (w : World) (spanNameSuffix : String) (sql : Option (String ⊕ SQLStatement))
    (tableName : Option String) (enableExtendedTracing : Bool),
    getAttr (startTraceSpan w spanNameSuffix sql tableName).attrs SEMATTRS_DB_STATEMENT =
      (if sql.isSome && (w.optedInPII || enableExtendedTracing) then some (sqlText sql) else none)

/-- A per-call configuration carrying the tracer-provider override the
specification describes. -/
structure PerCallConfig where
  tracerProvider : Option TracerProvider
deriving DecidableEq, Repr

/-- Tracer resolution as the code performs it for a call carrying a
per-call configuration: `getTracer()` takes no argument
(`src/instrument.ts` lines 89-95), so the configuration is ignored. -/
def resolveTracer_code (_cfg : PerCallConfig) (g : TraceGlobals) : Tracer :=
  getTracer g

/-- Tracer resolution as claim C4 states it, written after the words of
the specification: per-call override first, then the process-wide default
provider, then the ambient registry, always under the fixed identifier. -/
def resolveTracer_claim (cfg : PerCallConfig) (g : TraceGlobals) : Tracer :=
  match cfg.tracerProvider with
  | some p => p.getTracer "nodejs-spanner"
  | none =>
    match g.defaultTracerProvider with
    | some p => p.getTracer "nodejs-spanner"
    | none => traceGetTracer g "nodejs-spanner"

/-- Claim C4 as stated: the code's resolution follows the three-step
order, per-call override included. -/
def claimC4 : Prop :=
  ∀ (cfg : PerCallConfig) (g : TraceGlobals),
    resolveTracer_code cfg g = resolveTracer_claim cfg g

/-- The exclusion predicate claim C8 states: exactly the names ending in
`Stream`, the names prefixed with an underscore, and the constructor. -/
def claimAlwaysExcluded (methodName : String) : Bool :=
  strEnds methodName "Stream" || strStarts methodName "_" || methodName == "constructor"

/-- Bulk callback adaptation as claim C8 states it. -/
def claimAdaptAllCb (proto : List (String × ProtoVal)) (options : Option AllOptions) :
    List (String × ProtoVal) :=
  let exclude := excludeOf options
  proto.map (fun entry =>
    let methodName := entry.1
    let isFn := match entry.2 with | .func _ => true | .other _ => false
    if !(exclude.contains methodName) && isFn && !(claimAlwaysExcluded methodName) then
      match entry.2 with
      | .func f => if !f.callbackified_ then (methodName, .func (callbackify f)) else entry
      | .other _ => entry
    else entry)

/-- Bulk promise adaptation as claim C8 states it (same exclusions as for
the callback adapter, per the claim). -/
def claimAdaptAllPr (proto : List (String × ProtoVal)) (options : Option AllOptions) :
    List (String × ProtoVal) :=
  let exclude := excludeOf options
  proto.map (fun entry =>
    let methodName := entry.1
    let isFn := match entry.2 with | .func _ => true | .other _ => false
    if !(exclude.contains methodName) && isFn && !(claimAlwaysExcluded methodName) then
      match entry.2 with
      | .func f =>
        if !f.promisified_ then
          (methodName, .func (promisify f (options.map (fun o => ⟨o.singular⟩))))
        else entry
      | .other _ => entry
    else entry)

/-- Claim C8 as stated, over both bulk adapters. -/
def claimC8 : Prop :=
  ∀ (proto : List (String × ProtoVal)) (options : Option AllOptions),
    callbackifyAll proto options = claimAdaptAllCb proto options ∧
    promisifyAll proto options = claimAdaptAllPr proto options

/-- The exclusion predicate the code of `callbackifyAll` actually
implements: names containing `Stream` anywhere, names containing an
underscore anywhere (which subsumes the private prefix), and the
constructor. -/
def codeAlwaysExcludedCb (methodName : String) : Bool :=
  strIncludes methodName "Stream" || strIncludes methodName "_" ||
    methodName == "constructor"

/-- The exclusion predicate the code of `promisifyAll` actually
implements: as for `callbackifyAll`, plus names ending in `promise`. -/
def codeAlwaysExcludedPr (methodName : String) : Bool :=
  strIncludes methodName "Stream" || strIncludes methodName "_" ||
    strEnds methodName "promise" || methodName == "constructor"

/-- Bulk callback adaptation restated with the corrected exclusion
predicate. -/
def codeAdaptAllCb (proto : List (String × ProtoVal)) (options : Option AllOptions) :
    List (String × ProtoVal) :=
  let exclude := excludeOf options
  proto.map (fun entry =>
    let methodName := entry.1
    let isFn := match entry.2 with | .func _ => true | .other _ => false
    if !(exclude.contains methodName) && isFn && !(codeAlwaysExcludedCb methodName) then
      match entry.2 with
      | .func f => if !f.callbackified_ then (methodName, .func (callbackify f)) else entry
      | .other _ => entry
    else entry)

/-- Bulk promise adaptation restated with the corrected exclusion
predicate. -/
def codeAdaptAllPr (proto : List (String × ProtoVal)) (options : Option AllOptions) :
    List (String × ProtoVal) :=
  let exclude := excludeOf options
  proto.map (fun entry =>
    let methodName := entry.1
    let isFn := match entry.2 with | .func _ => true | .other _ => false
    if !(exclude.contains methodName) && isFn && !(codeAlwaysExcludedPr methodName) then
      match entry.2 with
      | .func f =>
        if !f.promisified_ then
          (methodName, .func (promisify f (options.map (fun o => ⟨o.singular⟩))))
        else entry
      | .other _ => entry
    else entry)

/-- Claim C9 as stated: `setSpanError` sets the error status with the
stringified error whenever both arguments are present, and no-ops exactly
when either is absent. -/
def claimC9 : Prop :=
  ∀ (w : World) (span : Option Nat) (err : Option JsVal),
    (setSpanError w span err).1 =
      match span, err with
      | some sid, some e =>
        modifySpan w sid (fun sp => { sp with status := ⟨.error, e.jsToString⟩ })
      | _, _ => w

/-- A concrete starting world: no default tracer provider, a globally
registered provider labelled `global`, PII opt-in off, no active span, no
spans recorded. -/
def w0 : World :=
  { globals := { defaultTracerProvider := none, globalProvider := ⟨"global"⟩ }
    optedInPII := false
    ambient := ⟨none⟩
    spans := [] }

/-- A concrete world holding one freshly started span. -/
def w1span : World :=
  (startTrace w0 "existing" none none).2

/-- A concrete promise-returning method that always rejects with the
error whose stringified form is `boom`. -/
def rejectingMethod : PromisedFn :=
  { name := "meth", settle := fun _ => Except.error ⟨"boom"⟩ }

/-- A concrete callback-style method that always invokes its callback
with the truthy error value `bad`. -/
def erroringCallbackMethod : CallbackFn :=
  { name := "cbm", cbArgs := fun _ => [JsVal.str "bad"], rawReturn := fun _ => .undef }

/-- A concrete callback-style method whose raw return value is `7`. -/
def plainCallbackMethod : CallbackFn :=
  { name := "method", cbArgs := fun _ => [], rawReturn := fun _ => .num 7 }

theorem list_set_concat {α : Type} (l : List α) (x y : α) :
    (l ++ [x]).set l.length y = l ++ [y] := by
  induction l with
  | nil => rfl
  | cons a as ih =>
    show a :: ((as ++ [x]).set as.length y) = a :: (as ++ [y])
    rw [ih]

theorem list_get?_concat {α : Type} (l : List α) (x : α) :
    (l ++ [x]).get? l.length = some x := by
  induction l with
  | nil => rfl
  | cons a as ih => exact ih

theorem list_getD_concat {α : Type} (l : List α) (x d : α) :
    (l ++ [x]).getD l.length d = x := by
  simp [List.getD, list_get?_concat]

theorem startTraceSpan_eq (w : World) (s : String) (q : Option (String ⊕ SQLStatement))
    (t : Option String) : startTraceSpan w s q t = builtSpan w s q t := by
  simp [startTraceSpan, startTrace, list_getD_concat]

theorem modifySpan_concat (w : World) (l : List SpanData) (x : SpanData)
    (f : SpanData → SpanData) (h : w.spans = l ++ [x]) :
    modifySpan w l.length f = { w with spans := l ++ [f x] } := by
  simp [modifySpan, h, list_get?_concat, list_set_concat]

/-- C3 (code bug): the first conjunct shows a span created by `startTrace`
is parented to the span active in the ambient context at the moment of
the call, but the world's ambient context after the call is unchanged —
the fresh context built by `trace.setSpan(context.active(), span)` is
discarded, so the new span is never installed as the ambient active span
(contradicting the code's own comment at lines 134-136).  The second
conjunct evaluates the failing input: after two successive `startTrace`
calls from an empty ambient context, the second span has no parent,
whereas the claim requires it to be a child of the first span. -/
theorem startTrace_does_not_install_active_span :
    (∀ (w : World) (s : String) (q : Option (String ⊕ SQLStatement)) (t : Option String),
      (startTraceSpan w s q t).parent = w.ambient.activeSpan ∧
      ((startTrace w s q t).2).ambient = w.ambient) ∧
    (((startTrace (startTrace w0 "op1" none none).2 "op2" none none).2).spans.getD 1
        defaultSpan).parent = none := by
  refine ⟨fun w s q t => ⟨?_, rfl⟩, by decide⟩
  rw [startTraceSpan_eq]
  rfl

/-- C4 counterexample: with a per-call tracer-provider override present, a
default provider unset, and an ambient registry provider labelled
`ambient`, the code resolves the tracer from the ambient registry while
the claimed three-step order requires it from the override. -/
theorem resolveTracer_ignores_override : ¬ claimC4 := by
  intro h
  exact absurd (h ⟨some ⟨"override"⟩⟩ ⟨none, ⟨"ambient"⟩⟩) (by decide)

/-- C4 amended: tracer resolution is total and two-step — the tracer
comes from the provider set via `setTracerProvider` when one is set,
otherwise from the ambient global registry; it is always requested under
the fixed identifier `nodejs-spanner`; no per-call override exists. -/
theorem getTracer_resolution (g : TraceGlobals) (p : TracerProvider) :
    getTracer g = ⟨(g.defaultTracerProvider.getD g.globalProvider).label, "nodejs-spanner"⟩ ∧
    (getTracer g).instrName = "nodejs-spanner" ∧
    getTracer (setTracerProvider g p) = p.getTracer "nodejs-spanner" := by
  refine ⟨?_, ?_, rfl⟩ <;>
    cases h : g.defaultTracerProvider <;>
      simp [getTracer, h, traceGetTracer, TracerProvider.getTracer]

/-- C1 counterexample: with the global PII opt-in off and the claimed
per-call extended-tracing flag true, `startTrace` called with SQL text
`SELECT 1` records no statement attribute, while the claim requires the
attribute to be present with value `SELECT 1`. -/
theorem startTrace_no_extended_tracing_flag : ¬ claimC1 := by
  intro h
  exact absurd (h w0 "run" (some (.inl "SELECT 1")) none true) (by decide)

theorem getAttr_setAttr_same (attrs : List (String × String)) (k v : String) :
    getAttr (setAttr attrs k v) k = some v := by
  induction attrs with
  | nil => simp [setAttr, getAttr]
  | cons a as ih =>
    obtain ⟨k', v'⟩ := a
    by_cases hk : (k' == k) = true
    · simp [setAttr, getAttr, hk]
    · rw [Bool.not_eq_true] at hk
      simp [setAttr, getAttr, hk, ih]

theorem getAttr_setAttr_ne (attrs : List (String × String)) (k q v : String)
    (hq : (k == q) = false) :
    getAttr (setAttr attrs k v) q = getAttr attrs q := by
  induction attrs with
  | nil => simp [setAttr, getAttr, hq]
  | cons a as ih =>
    obtain ⟨k', v'⟩ := a
    by_cases hk : (k' == k) = true
    · have hk' : k' = k := by simpa using hk
      simp [setAttr, getAttr, hk, hq, hk']
    · rw [Bool.not_eq_true] at hk
      by_cases hq' : (k' == q) = true <;>
        simp [setAttr, getAttr, hk, hq', ih]

theorem getAttr_baseAttrs_statement (tn : Option String) :
    getAttr (baseAttrs tn) SEMATTRS_DB_STATEMENT = none := by
  rcases tn with _ | t
  · decide
  · by_cases ht : (t != "") = true <;>
      simp [baseAttrs, ht, setAttr, getAttr, SEMATTRS_DB_SYSTEM,
        SEMATTRS_DB_SQL_TABLE, SEMATTRS_DB_STATEMENT]

/-- C1 amended: the statement-text attribute is present on the span
created by `startTrace` if and only if the global PII opt-in flag is true
AND the SQL argument is truthy (a non-empty SQL string, or a structured
statement); when present its value is exactly the literal SQL string (for
a structured statement, its `sql` field); otherwise it is absent.
`startTrace` accepts no per-call extended-tracing flag. -/
theorem startTrace_statement_attr (w : World) (spanNameSuffix : String)
    (sql : Option (String ⊕ SQLStatement)) (tableName : Option String) :
    getAttr (startTraceSpan w spanNameSuffix sql tableName).attrs SEMATTRS_DB_STATEMENT =
      (if w.optedInPII && sqlTruthy sql then some (sqlText sql) else none) := by
  rw [startTraceSpan_eq]
  show getAttr (builtAttrs w.optedInPII sql tableName) SEMATTRS_DB_STATEMENT = _
  unfold builtAttrs
  cases hgate : w.optedInPII && sqlTruthy sql
  · simp [getAttr_baseAttrs_statement]
  · rcases sql with _ | ⟨s | stmt⟩
    · simp [sqlTruthy] at hgate
    · simpa [sqlText] using
        getAttr_setAttr_same (baseAttrs tableName) SEMATTRS_DB_STATEMENT s
    · simpa [sqlText] using
        getAttr_setAttr_same (baseAttrs tableName) SEMATTRS_DB_STATEMENT stmt.sql

/-- C5: applying `callbackify` (or `promisify`) twice to the same
function yields the very same function object as applying it once: the
second application detects the idempotence marker set by the first and
returns the already-wrapped function unchanged, so only one adaptation
layer ever exists and repeated adaptation is a silent no-op. -/
theorem adapter_idempotent :
    (∀ f : FuncObj, callbackify (callbackify f) = callbackify f) ∧
    (∀ (f : FuncObj) (o1 o2 : Option PromisifyOptions),
      promisify (promisify f o1) o2 = promisify f o1) := by
  constructor
  · intro f
    cases f <;> simp [callbackify, FuncObj.callbackified_]
  · intro f o1 o2
    cases f <;> simp [promisify, FuncObj.promisified_]

/-- C6: `getActiveOrNoopSpan` returns the exact active span when one is
active in the ambient context; when none is active it returns the noop
span, whose `isRecording` is false, whose `spanContext` is the fixed
invalid sentinel, and whose every mutating operation (`setAttribute`,
`setAttributes`, `addEvent`, `setStatus`, `updateName`, `addLink`,
`addLinks`) returns the span itself; every operation is total, so none
can fail on any input. -/
theorem getActiveOrNoopSpan_facade :
    (∀ sid : Nat, getActiveOrNoopSpan ⟨some sid⟩ = Sum.inl sid) ∧
    getActiveOrNoopSpan ⟨none⟩ = Sum.inr NoopSpan.mk ∧
    (∀ s : NoopSpan, s.isRecording = false) ∧
    (∀ s : NoopSpan, s.spanContext = INVALID_SPAN_CONTEXT) ∧
    (∀ (s : NoopSpan) (k : String) (v : JsVal), s.setAttribute k v = s) ∧
    (∀ (s : NoopSpan) (a : List (String × JsVal)), s.setAttributes a = s) ∧
    (∀ (s : NoopSpan) (n : String) (a : Option (List (String × JsVal))), s.addEvent n a = s) ∧
    (∀ (s : NoopSpan) (st : SpanStatusRec), s.setStatus st = s) ∧
    (∀ (s : NoopSpan) (n : String), s.updateName n = s) ∧
    (∀ (s : NoopSpan) (l : Link), s.addLink l = s) ∧
    (∀ (s : NoopSpan) (ls : List Link), s.addLinks ls = s) := by
  refine ⟨fun _ => rfl, rfl, fun s => rfl, fun s => rfl, fun s _ _ => rfl,
    fun s _ => rfl, fun s _ _ => rfl, fun s _ => rfl, fun s _ => rfl,
    fun s _ => rfl, fun s _ => rfl⟩

theorem isPrefixOf_imp_containsSub (pat l : List Char)
    (h : List.isPrefixOf pat l = true) : listContainsSub pat l = true := by
  cases l with
  | nil =>
    cases pat with
    | nil => rfl
    | cons c cs => simp [List.isPrefixOf] at h
  | cons c cs => simp [listContainsSub, h]

theorem callbackifyRegexTest_eq (methodName : String) :
    callbackifyRegexTest methodName = codeAlwaysExcludedCb methodName := by
  unfold callbackifyRegexTest codeAlwaysExcludedCb
  cases hs : strStarts methodName "_"
  · simp [hs]
  · have hinc : strIncludes methodName "_" = true :=
      isPrefixOf_imp_containsSub _ _ hs
    simp [hs, hinc]

theorem promisifyRegexTest_eq (methodName : String) :
    promisifyRegexTest methodName = codeAlwaysExcludedPr methodName := by
  unfold promisifyRegexTest codeAlwaysExcludedPr
  cases hs : strStarts methodName "_"
  · simp [hs]
  · have hinc : strIncludes methodName "_" = true :=
      isPrefixOf_imp_containsSub _ _ hs
    simp [hs, hinc]

/-- C8 counterexample: the method name `getStreamInfo` does not end in
`Stream`, is not underscore-prefixed and is not the constructor, so the
claim requires it to be adapted; the code's regex excludes it because it
contains `Stream` anywhere, so `callbackifyAll` leaves it unchanged. -/
theorem bulk_exclusion_broader_than_claimed : ¬ claimC8 := by
  intro h
  exact absurd (h [("getStreamInfo", .func (.plain 0))] none).1 (by decide)

/-- C8 amended: bulk adaptation applies the single-function adapter to
every own prototype method that is a function, is not in the caller's
exclusion list, and does not match the exclusion predicate, skipping
methods already carrying the idempotence marker — where the names always
excluded are exactly those containing `Stream` anywhere, those containing
an underscore anywhere (hence all private-prefixed names), and the
constructor; `promisifyAll` additionally always excludes names ending in
`promise`. -/
theorem bulk_exclusion_exact (proto : List (String × ProtoVal)) (options : Option AllOptions) :
    callbackifyAll proto options = codeAdaptAllCb proto options ∧
    promisifyAll proto options = codeAdaptAllPr proto options := by
  constructor
  · unfold callbackifyAll codeAdaptAllCb
    exact List.map_congr_left fun entry _ => by
      simp only [callbackifyRegexTest_eq]
  · unfold promisifyAll codeAdaptAllPr
    exact List.map_congr_left fun entry _ => by
      simp only [promisifyRegexTest_eq]

/-- C9 counterexample: with a span and a present but falsy error (the
empty string, a value of the `Error | String` parameter type),
`setSpanError` is a no-op, while the claim requires it to set the error
status whenever both arguments are present. -/
theorem setSpanError_ignores_falsy_error : ¬ claimC9 := by
  intro h
  have h0 := congrArg (fun w => (w.spans.getD 0 defaultSpan).status.code)
    (h w1span (some 0) (some (.str "")))
  exact absurd h0 (by decide)

/-- C9 amended: `setSpanError` sets the span status to error with the
stringified error as message whenever both arguments are present and the
error is truthy; it is a no-op when either argument is absent or when the
error is falsy (for example the empty string); being a total function, it
never throws. -/
theorem setSpanError_behavior (w : World) (sid : Nat) (e : JsVal) :
    ((setSpanError w (some sid) (some e)).1 =
      if e.truthy then
        modifySpan w sid (fun sp => { sp with status := ⟨.error, e.jsToString⟩ })
      else w) ∧
    (∀ err : Option JsVal, setSpanError w none err = (w, [])) ∧
    (∀ span : Option Nat, setSpanError w span none = (w, [])) := by
  refine ⟨?_, fun err => by cases err <;> rfl, fun span => by cases span <;> rfl⟩
  by_cases ht : e.truthy = true
  · simp [setSpanError, ht]
  · rw [Bool.not_eq_true] at ht
    simp [setSpanError, ht]

/-- C7: the wrapper produced by `promisify` forwards directly to the
original method (returning its raw result) exactly when the trailing
scan — from the end, skipping trailing `undefined` placeholders — finds a
function; otherwise it returns a promise whose settlement follows the
specified policy: reject with the callback's error when one is supplied,
resolve with the bare single value when the `singular` option is set and
exactly one result value is present, else resolve with the full ordered
result list. -/
theorem promisify_wrapper_outcome (m : CallbackFn) (options : Option PromisifyOptions)
    (w : World) (args : List JsVal) :
    (promisifyRun m options w args).outcome =
      (if lastNonUndefinedIsFunction args then Sum.inr (m.rawReturn args)
       else Sum.inl (promisifySettleSpec m options args)) := by
  unfold promisifyRun promisifySettleSpec
  cases hscan : lastNonUndefinedIsFunction args
  · simp only [hscan, Bool.false_eq_true, if_false]
    cases hcb : m.cbArgs (peelTrailingUndefined args) with
    | nil => simp [hcb, JsVal.truthy]
    | cons e rest =>
      cases he : e.truthy <;> simp [hcb, he]
      split <;> rfl
  · simp [hscan]

/-- C10: whenever the `promisify` wrapper detects an explicitly supplied
callback (the last non-`undefined` argument is a function), it has
already started a new span before that detection — the span-start event
leads the trace and a new span record exists — and on this forwarding
path it returns the original method's raw result while that span is
never ended and its status never set. -/
theorem promisify_forward_leaks_span (m : CallbackFn) (options : Option PromisifyOptions)
    (w : World) (args : List JsVal) (h : lastNonUndefinedIsFunction args = true) :
    (promisifyRun m options w args).events = [Ev.startSpanEv w.spans.length, Ev.forwardEv] ∧
    (promisifyRun m options w args).outcome = Sum.inr (m.rawReturn args) ∧
    (promisifyRun m options w args).world.spans.length = w.spans.length + 1 ∧
    ((promisifyRun m options w args).world.spans.getD w.spans.length defaultSpan).ended = false ∧
    ((promisifyRun m options w args).world.spans.getD w.spans.length defaultSpan).status =
      ⟨.unset, ""⟩ := by
  unfold promisifyRun
  simp [h, startTrace, list_getD_concat, builtSpan]

/-- Witness for C10 at a concrete input: a single explicitly supplied
callback argument. -/
theorem promisify_forward_leaks_span_witness :
    (promisifyRun plainCallbackMethod none w0 [JsVal.fn 0 "cb"]).events =
      [Ev.startSpanEv 0, Ev.forwardEv] ∧
    (promisifyRun plainCallbackMethod none w0 [JsVal.fn 0 "cb"]).outcome =
      Sum.inr (JsVal.num 7) ∧
    (promisifyRun plainCallbackMethod none w0 [JsVal.fn 0 "cb"]).world.spans.length = 1 ∧
    ((promisifyRun plainCallbackMethod none w0 [JsVal.fn 0 "cb"]).world.spans.getD 0
        defaultSpan).ended = false ∧
    ((promisifyRun plainCallbackMethod none w0 [JsVal.fn 0 "cb"]).world.spans.getD 0
        defaultSpan).status = ⟨.unset, ""⟩ := by
  have h := promisify_forward_leaks_span plainCallbackMethod none w0 [JsVal.fn 0 "cb"]
    (by decide)
  simpa [w0, plainCallbackMethod] using h

/-- C2: in both adapters, when the wrapped operation produces an error
(a rejection of the wrapped promise, or a truthy error slot passed to the
synthesized callback), the enclosing span's status is set to error with
the stringified error as its message strictly before the error is
delivered (to the callback, or as the promise rejection), and the value
delivered is the identical, unaltered error. -/
theorem adapters_record_error_before_delivery :
    (∀ (m : PromisedFn) (w : World) (args : List JsVal) (tag : Nat) (cbName : String)
        (e : JsError),
      args.getLast? = some (JsVal.fn tag cbName) →
      m.settle args.dropLast = Except.error e →
      ∃ i j : Nat, i < j ∧
        (callbackifyRun m w args).events.get? i =
          some (Ev.setStatusEv w.spans.length SpanStatusCode.error e.message) ∧
        (callbackifyRun m w args).events.get? j = some (Ev.cbCall [JsVal.err e]) ∧
        ((callbackifyRun m w args).world.spans.getD w.spans.length defaultSpan).status =
          ⟨SpanStatusCode.error, e.message⟩) ∧
    (∀ (m : CallbackFn) (options : Option PromisifyOptions) (w : World) (args : List JsVal)
        (er : JsVal) (rest : List JsVal),
      lastNonUndefinedIsFunction args = false →
      m.cbArgs (peelTrailingUndefined args) = er :: rest →
      er.truthy = true →
      ∃ i j : Nat, i < j ∧
        (promisifyRun m options w args).events.get? i =
          some (Ev.setStatusEv w.spans.length SpanStatusCode.error er.jsToString) ∧
        (promisifyRun m options w args).events.get? j = some (Ev.rejectEv er) ∧
        (promisifyRun m options w args).outcome = Sum.inl (PromiseSettle.rejected er) ∧
        ((promisifyRun m options w args).world.spans.getD w.spans.length defaultSpan).status =
          ⟨SpanStatusCode.error, er.jsToString⟩) := by
  constructor
  · intro m w args tag cbName e hlast hsettle
    refine ⟨1, 3, by omega, ?_, ?_, ?_⟩ <;>
      simp [callbackifyRun, hlast, hsettle, setSpanError, JsVal.truthy, JsVal.jsToString,
        startTrace, endSpanW, modifySpan, list_get?_concat, list_set_concat, list_getD_concat]
  · intro m options w args er rest hscan hcb htruthy
    refine ⟨1, 3, by omega, ?_, ?_, ?_, ?_⟩ <;>
      simp [promisifyRun, hscan, hcb, htruthy, setSpanError, startTrace, endSpanW,
        modifySpan, list_get?_concat, list_set_concat, list_getD_concat]

/-- Witness for C2 at concrete inputs: a rejecting promise method under
`callbackify`, and a callback method passing a truthy error under
`promisify`. -/
theorem adapters_record_error_before_delivery_witness :
    (∃ i j : Nat, i < j ∧
      (callbackifyRun rejectingMethod w0 [JsVal.fn 0 "mycb"]).events.get? i =
        some (Ev.setStatusEv 0 SpanStatusCode.error "boom") ∧
      (callbackifyRun rejectingMethod w0 [JsVal.fn 0 "mycb"]).events.get? j =
        some (Ev.cbCall [JsVal.err ⟨"boom"⟩]) ∧
      ((callbackifyRun rejectingMethod w0 [JsVal.fn 0 "mycb"]).world.spans.getD 0
          defaultSpan).status = ⟨SpanStatusCode.error, "boom"⟩) ∧
    (∃ i j : Nat, i < j ∧
      (promisifyRun erroringCallbackMethod none w0 [JsVal.str "x"]).events.get? i =
        some (Ev.setStatusEv 0 SpanStatusCode.error "bad") ∧
      (promisifyRun erroringCallbackMethod none w0 [JsVal.str "x"]).events.get? j =
        some (Ev.rejectEv (JsVal.str "bad")) ∧
      (promisifyRun erroringCallbackMethod none w0 [JsVal.str "x"]).outcome =
        Sum.inl (PromiseSettle.rejected (JsVal.str "bad")) ∧
      ((promisifyRun erroringCallbackMethod none w0 [JsVal.str "x"]).world.spans.getD 0
          defaultSpan).status = ⟨SpanStatusCode.error, "bad"⟩) := by
  constructor
  · have h := adapters_record_error_before_delivery.1 rejectingMethod w0
      [JsVal.fn 0 "mycb"] 0 "mycb" ⟨"boom"⟩ rfl rfl
    simpa [w0, rejectingMethod] using h
  · have h := adapters_record_error_before_delivery.2 erroringCallbackMethod none w0
      [JsVal.str "x"] (JsVal.str "bad") [] (by decide) rfl (by decide)
    simpa [w0, erroringCallbackMethod, JsVal.jsToString] using h

end Spanner
